import Mathlib

/-!
Verification of the NutriScan client's resilient data-access layer.

The definitions below are a shallow embedding of the two source files:

- src/nutriscan-ui/src/App.jsx: the api object (token storage, req), the
  ScannerScreen subscription check and scan action, the PaywallScreen
  payment flow, and the DashboardScreen load.
- src/nutriscan-ui/public/sw.js: the service-worker fetch listener
  implementing the network-first offline cache.

Asynchronous JavaScript is modelled by passing each network interaction's
outcome (the HTTP response, or a transport-level failure) as an explicit
argument to the state-transition function that the corresponding source
code performs, in the order the source awaits them.
-/

namespace NutriScan

/-- The decoded JSON body of an HTTP response.  The status code is what
fetch reports; detail is the value of the detail field of the JSON body
when the body decodes and has one (the source reads it as
r.json().catch(() => ({})).detail); body is the decoded payload returned
on success, left abstract. -/
structure Response (β : Type) where
  status : Nat
  detail : Option String
  body : β
deriving Repr, DecidableEq

/-- fetch Response.ok: status in the range 200 to 299. -/
def respOk (status : Nat) : Bool :=
  200 ≤ status && status ≤ 299

/-- State of the api object in App.jsx: the bearer token held in
api.token (mirrored to localStorage under ns_token, which the embedding
does not distinguish). -/
structure ApiState where
  token : Option String
deriving Repr, DecidableEq

/-- Headers built by api.req before the fetch: Authorization is attached
only when a token is present; Content-Type application/json is set unless
the body is FormData. -/
structure Headers where
  auth : Option String
  contentTypeJson : Bool
deriving Repr, DecidableEq

/-- Header construction of api.req (App.jsx lines 75 to 77). -/
def buildHeaders (st : ApiState) (isFormData : Bool) : Headers :=
  { auth := st.token.map (fun t => "Bearer " ++ t)
    contentTypeJson := !isFormData }

/-- Everything api.req does after the fetch resolves: the api state after
the call, whether window.location.reload() was invoked, and the value the
returned promise settles with (error message of the thrown Error, or the
decoded body). -/
structure ReqOutcome (β : Type) where
  state : ApiState
  reloaded : Bool
  result : Except String β
deriving Repr

/-- The detail string used in the thrown Error: the body's detail field
when present, otherwise the literal Failed (App.jsx line 80). -/
def errDetail {β : Type} (r : Response β) : String :=
  r.detail.getD "Failed"

/-- Embedding of api.req's response handling (App.jsx lines 78 to 81).
On status 401 the token is cleared and a reload is triggered; note the
source then falls through to the next line, so a 401 response (which is
never ok) also reaches the generic throw.  On any other non-ok status the
promise rejects with Error(detail or Failed); on an ok status it resolves
with the decoded body. -/
def req {β : Type} (st : ApiState) (r : Response β) : ReqOutcome β :=
  let st1 : ApiState := if r.status == 401 then { token := none } else st
  let rl : Bool := r.status == 401
  if respOk r.status then
    { state := st1, reloaded := rl, result := Except.ok r.body }
  else
    { state := st1, reloaded := rl, result := Except.error (errDetail r) }

/-- The api state left behind by a sequence of calls through api.req,
each call described by the response the network returned for it. -/
def stateAfterCalls {β : Type} (st : ApiState) (rs : List (Response β)) : ApiState :=
  rs.foldl (fun s r => (req s r).state) st

/-- The Authorization header attached to each call of a sequence of calls
through api.req: the header of a call is built from the api state left by
the calls before it. -/
def authTrace {β : Type} (st : ApiState) : List (Response β) → List (Option String)
  | [] => []
  | r :: rs => (buildHeaders st false).auth :: authTrace (req st r).state rs

/-- Subscription status body returned by the subscription status endpoint,
with the fields the client reads. -/
structure SubStatus where
  active : Bool
  is_trial : Bool
  free_scans_used : Nat
  free_scans_total : Nat
deriving Repr, DecidableEq

/-- Component state of ScannerScreen that the claims are about: whether
the paywall replaces the scanner, whether the advisory check has settled,
the surfaced error and the last analysis result. -/
structure ScannerState (β : Type) where
  showPaywall : Bool
  subChecked : Bool
  error : Option String
  result : Option β
deriving Repr

/-- Initial ScannerScreen state (App.jsx lines 430 to 434). -/
def initScanner (β : Type) : ScannerState β :=
  { showPaywall := false, subChecked := false, error := none, result := none }

/-- Embedding of the advisory subscription check run on mount of
ScannerScreen (App.jsx lines 440 to 445): on a successful status response
the paywall is raised only when active is false, and subChecked is set;
on any failure of the call the error is swallowed and only subChecked is
set. -/
def subCheck {β : Type} (st : ScannerState β) (outcome : Except String SubStatus) :
    ScannerState β :=
  match outcome with
  | Except.ok s =>
      { st with showPaywall := if !s.active then true else st.showPaywall
                subChecked := true }
  | Except.error _ => { st with subChecked := true }

/-- Embedding of ScannerScreen.scan (App.jsx lines 455 to 471), given the
settled outcome of the meals analyze call through api.req: the error is
reset, then on success the result is stored; on failure with message
subscription_required the paywall is raised, and on any other failure the
message is surfaced as the error. -/
def scan {β : Type} (st : ScannerState β) (outcome : Except String β) :
    ScannerState β :=
  let st0 := { st with error := none }
  match outcome with
  | Except.ok a => { st0 with result := some a }
  | Except.error m =>
      if m == "subscription_required" then { st0 with showPaywall := true }
      else { st0 with error := some m }

/-- What ScannerScreen renders (App.jsx lines 475 to 481). -/
inductive ScannerView where
  | loadingView
  | paywall
  | scanner
deriving Repr, DecidableEq

/-- Render decision of ScannerScreen: a spinner until the advisory check
settles, then the paywall when showPaywall holds, else the scanner UI. -/
def renderScanner {β : Type} (st : ScannerState β) : ScannerView :=
  if !st.subChecked then ScannerView.loadingView
  else if st.showPaywall then ScannerView.paywall
  else ScannerView.scanner

/-- State of the payment sub-flow: PaywallScreen's paying flag and error
banner, together with the parent ScannerScreen's showPaywall flag, which
the onPaid callback (App.jsx line 477) sets to false. -/
structure PaywallState where
  paying : Bool
  error : Option String
  paywallShown : Bool
deriving Repr, DecidableEq

/-- Outcome of one run of PaywallScreen.handlePayment, in the order the
source awaits: the create-order call may fail; otherwise the Razorpay
widget either is dismissed, fails, or succeeds; on widget success the
verify call is made and its outcome observed. -/
inductive PayOutcome where
  | orderFailed (msg : String)
  | widgetCancelled
  | widgetFailed (desc : Option String)
  | widgetSuccess (verify : Except String Unit)
deriving Repr

/-- Holds exactly when the payment run reached the widget success handler
and the server-side verification call succeeded. -/
def verifiedOk (o : PayOutcome) : Bool :=
  match o with
  | PayOutcome.widgetSuccess (Except.ok _) => true
  | _ => false

/-- Number of calls to the subscription verify endpoint that one run of
handlePayment performs: exactly one when the widget succeeds (inside the
handler callback), none otherwise; no branch retries it. -/
def verifyCalls (o : PayOutcome) : Nat :=
  match o with
  | PayOutcome.widgetSuccess _ => 1
  | _ => 0

/-- Embedding of PaywallScreen.handlePayment (App.jsx lines 310 to 351)
together with the widget handler and the payment.failed and ondismiss
callbacks.  The flow first sets paying and clears the error; a
create-order failure surfaces its message; dismissal only resets paying;
a widget payment failure surfaces its description or the generic message
Payment failed; on widget success the verify call is awaited, and only
its success runs onPaid (dismissing the paywall), while its failure
surfaces the distinct contact-support message and leaves the paywall
up. -/
def handlePayment (st : PaywallState) (o : PayOutcome) : PaywallState :=
  let st0 := { st with paying := true, error := none }
  match o with
  | PayOutcome.orderFailed m => { st0 with error := some m, paying := false }
  | PayOutcome.widgetCancelled => { st0 with paying := false }
  | PayOutcome.widgetFailed d =>
      { st0 with error := some (d.getD "Payment failed"), paying := false }
  | PayOutcome.widgetSuccess (Except.ok _) => { st0 with paywallShown := false }
  | PayOutcome.widgetSuccess (Except.error _) =>
      { st0 with error := some "Payment verification failed. Contact support." }

/-- Dashboard component state: the three fetched views and the loading
flag (App.jsx lines 716 to 720). -/
structure DashState where
  today : Option String
  history : Option String
  stats : Option String
  loading : Bool
deriving Repr, DecidableEq

/-- Promise.all over the three dashboard reads: succeeds with all three
bodies when all succeed, otherwise rejects. -/
def joinAll (t h s : Except String String) :
    Except String (String × String × String) := do
  let a ← t
  let b ← h
  let c ← s
  pure (a, b, c)

/-- Embedding of DashboardScreen.load (App.jsx lines 724 to 731): the
joined result is applied to all three state fields at once on success;
on failure no field is touched; finally always clears loading. -/
def dashLoad (st : DashState) (t h s : Except String String) : DashState :=
  match joinAll t h s with
  | Except.ok (a, b, c) =>
      { today := some a, history := some b, stats := some c, loading := false }
  | Except.error _ => { st with loading := false }

/-- Decides whether a pattern occurs at the head of a character list. -/
def startsWith : List Char → List Char → Bool
  | [], _ => true
  | _ :: _, [] => false
  | a :: p, b :: s => a == b && startsWith p s

/-- Decides whether a pattern occurs anywhere in a character list. -/
def containsSeq (needle : List Char) : List Char → Bool
  | [] => startsWith needle []
  | s@(_ :: rest) => startsWith needle s || containsSeq needle rest

/-- The service worker's API test (sw.js line 28):
e.request.url.includes the segment /api/. -/
def isApiUrl (url : String) : Bool :=
  containsSeq "/api/".toList url.toList

/-- The service worker cache: entries keyed by request URL holding the
stored response's status and body; the most recent entry for a key comes
first. -/
abbrev Cache := List (String × Nat × String)

/-- cache.put for a key: the new snapshot shadows any earlier entry for
the same URL. -/
def cachePut (c : Cache) (url : String) (status : Nat) (body : String) : Cache :=
  (url, status, body) :: c

/-- caches.match for a key: the most recent stored response, if any. -/
def cacheMatch (c : Cache) (url : String) : Option (Nat × String) :=
  (c.find? (fun e => e.1 == url)).map (fun e => e.2)

/-- The network's behaviour for one request: either the server responded
with some status and body, or the fetch rejected at the transport
level. -/
inductive NetResult where
  | resp (status : Nat) (body : String)
  | netFail
deriving Repr, DecidableEq

/-- What the page observes for one intercepted request: a response with
a status and body, or a network-level failure. -/
inductive SWOutcome where
  | served (status : Nat) (body : String)
  | failed
deriving Repr, DecidableEq

/-- Embedding of the service worker fetch listener (sw.js lines 26 to
42).  For a URL containing /api/ the listener returns without calling
respondWith, so the browser performs the plain fetch: the page sees the
raw network result and the cache is untouched.  Otherwise network-first:
a response is returned as-is and additionally stored when ok; on a
transport failure caches.match is served when a stored entry exists, and
respondWith of the undefined match (a failure to the page) otherwise. -/
def handleFetch (c : Cache) (url : String) (net : NetResult) : SWOutcome × Cache :=
  if isApiUrl url then
    match net with
    | NetResult.resp s b => (SWOutcome.served s b, c)
    | NetResult.netFail => (SWOutcome.failed, c)
  else
    match net with
    | NetResult.resp s b =>
        if respOk s then (SWOutcome.served s b, cachePut c url s b)
        else (SWOutcome.served s b, c)
    | NetResult.netFail =>
        match cacheMatch c url with
        | some (s, b) => (SWOutcome.served s b, c)
        | none => (SWOutcome.failed, c)

/-- The api state left by a call depends only on whether the response
status was 401. -/
lemma req_state_eq {β : Type} (st : ApiState) (r : Response β) :
    (req st r).state = if r.status == 401 then { token := none } else st := by
  unfold req
  by_cases h : respOk r.status <;> simp [h]

/-- A call through api.req never installs a token: a cleared session
stays cleared. -/
lemma req_preserves_cleared {β : Type} (st : ApiState) (r : Response β)
    (h : st.token = none) : (req st r).state.token = none := by
  rw [req_state_eq]
  by_cases h4 : r.status == 401 <;> simp [h4, h]

/-- A cleared session stays cleared across any further sequence of
calls. -/
lemma stateAfterCalls_preserves_cleared {β : Type} (st : ApiState)
    (rs : List (Response β)) (h : st.token = none) :
    (stateAfterCalls st rs).token = none := by
  induction rs generalizing st with
  | nil => exact h
  | cons r rs ih =>
      simp only [stateAfterCalls, List.foldl_cons]
      exact ih _ (req_preserves_cleared st r h)

/-- After a sequence of calls containing a 401 response, the session is
cleared. -/
lemma stateAfterCalls_cleared_of_401 {β : Type} (st : ApiState)
    (rs : List (Response β)) (h : ∃ r ∈ rs, r.status = 401) :
    (stateAfterCalls st rs).token = none := by
  induction rs generalizing st with
  | nil => simp at h
  | cons r rs ih =>
      simp only [stateAfterCalls, List.foldl_cons]
      rcases h with ⟨x, hx, hx401⟩
      rcases List.mem_cons.mp hx with h1 | h2
      · subst h1
        apply stateAfterCalls_preserves_cleared
        rw [req_state_eq]
        simp [hx401]
      · exact ih _ ⟨x, h2, hx401⟩

/-- The header trace of an appended sequence splits at the intermediate
api state. -/
lemma authTrace_append {β : Type} (st : ApiState) (rs₁ rs₂ : List (Response β)) :
    authTrace st (rs₁ ++ rs₂)
      = authTrace st rs₁ ++ authTrace (stateAfterCalls st rs₁) rs₂ := by
  induction rs₁ generalizing st with
  | nil => simp [authTrace, stateAfterCalls]
  | cons r rs ih =>
      simp only [List.cons_append, authTrace, stateAfterCalls, List.foldl_cons,
        List.append_eq]
      rw [ih]
      rfl

/-- A trace has one attached header per call. -/
lemma authTrace_length {β : Type} (st : ApiState) (rs : List (Response β)) :
    (authTrace st rs).length = rs.length := by
  induction rs generalizing st with
  | nil => rfl
  | cons r rs ih => simp [authTrace, ih]

/-- From a cleared session, no call in a trace attaches an Authorization
header. -/
lemma authTrace_cleared {β : Type} (st : ApiState) (rs : List (Response β))
    (h : st.token = none) : ∀ a ∈ authTrace st rs, a = none := by
  induction rs generalizing st with
  | nil => simp [authTrace]
  | cons r rs ih =>
      intro a ha
      rcases List.mem_cons.mp ha with h1 | h2
      · subst h1
        simp [buildHeaders, h]
      · exact ih _ (req_preserves_cleared st r h) a h2

/-- Whether a settled promise from api.req was a success. -/
def settledOk {α : Type} : Except String α → Bool
  | Except.ok _ => true
  | Except.error _ => false

/-- The advisory check never lowers a raised paywall: it either raises it
or leaves it unchanged. -/
lemma subCheck_paywall_mono {β : Type} (st : ScannerState β)
    (adv : Except String SubStatus) (h : st.showPaywall = true) :
    (subCheck st adv).showPaywall = true := by
  cases adv with
  | ok s => simp [subCheck, h]
  | error m => simp [subCheck, h]

/-- C1, counterexample.  The claim states that on a 401 response the call
is aborted before any other error handling and in particular the generic
non-success error path is not taken.  In the source the 401 branch
(App.jsx line 79) does not return or throw, so execution falls through to
line 80 and the very same 401 response is also thrown through the generic
non-success path: at this concrete input the call's result is exactly the
generic Error built from the body's detail field. -/
theorem req_401_takes_generic_error_path :
    (req ⟨some "tok"⟩ (⟨401, some "Not authenticated", "body"⟩ : Response String)).result
      = Except.error "Not authenticated" := rfl

/-- C1, amended.  On any response with status 401, api.req clears the
stored credential and triggers the page reload that forces the
application back to the unauthenticated state, and these happen before
the generic error handling on the next source line; the call then still
fails through the generic non-success path, rejecting with the Error
built from the body's detail field (or Failed). -/
theorem req_401_clears_session_before_throwing {β : Type} (st : ApiState)
    (r : Response β) (h : r.status = 401) :
    (req st r).state.token = none ∧ (req st r).reloaded = true
      ∧ (req st r).result = Except.error (errDetail r) := by
  have hok : respOk 401 = false := rfl
  unfold req
  simp [h, hok]

/-- C1 witness: the amended theorem applied at a concrete 401 response. -/
theorem req_401_clears_session_before_throwing_witness :
    (req ⟨some "tok"⟩ (⟨401, some "Session expired", "b"⟩ : Response String)).state.token = none
      ∧ (req ⟨some "tok"⟩ (⟨401, some "Session expired", "b"⟩ : Response String)).reloaded = true
      ∧ (req ⟨some "tok"⟩ (⟨401, some "Session expired", "b"⟩ : Response String)).result
          = Except.error (errDetail (⟨401, some "Session expired", "b"⟩ : Response String)) :=
  req_401_clears_session_before_throwing ⟨some "tok"⟩ _ rfl

/-- C2.  In any sequence of calls through api.req whose prefix contains a
response with status 401, every call after that prefix attaches no
Authorization header at all: the 401 cleared the stored token, no call
ever re-installs one, so no later call carries the old credential. -/
theorem no_auth_attached_after_401 {β : Type} (st : ApiState)
    (rs₁ rs₂ : List (Response β)) (h : ∃ r ∈ rs₁, r.status = 401) :
    ∀ a ∈ (authTrace st (rs₁ ++ rs₂)).drop rs₁.length, a = none := by
  intro a ha
  rw [authTrace_append] at ha
  rw [← authTrace_length st rs₁, List.drop_left] at ha
  exact authTrace_cleared _ rs₂ (stateAfterCalls_cleared_of_401 st rs₁ h) a ha

/-- C2 witness: in a concrete three-call trace whose first call got a
401, the first call after that prefix attaches no Authorization
header. -/
theorem no_auth_attached_after_401_witness :
    ((authTrace ⟨some "tok"⟩
        ([⟨401, some "Not authenticated", "b"⟩]
          ++ [(⟨200, none, "ok"⟩ : Response String), ⟨500, some "boom", "b"⟩])).drop
        [(⟨401, some "Not authenticated", "b"⟩ : Response String)].length).headI = none :=
  no_auth_attached_after_401 ⟨some "tok"⟩
    [⟨401, some "Not authenticated", "b"⟩]
    [(⟨200, none, "ok"⟩ : Response String), ⟨500, some "boom", "b"⟩]
    ⟨⟨401, some "Not authenticated", "b"⟩, List.mem_singleton.mpr rfl, rfl⟩
    _ (by decide)

/-- C3, counterexample.  The claim states that a non-success response
fails with an error value carrying the response status.  In the source
the thrown value is Error(detail or Failed) (App.jsx line 80), which
holds only the message: two responses with the distinct statuses 500 and
503 but the same body produce identical error results, so the error
value cannot carry the response status. -/
theorem req_error_omits_status :
    (req (⟨some "tok"⟩ : ApiState) (⟨500, some "boom", "b"⟩ : Response String)).result
        = (req ⟨some "tok"⟩ ⟨503, some "boom", "b"⟩).result
      ∧ (500 : Nat) ≠ 503 :=
  ⟨rfl, by decide⟩

/-- C3, amended.  On any non-success status the call fails with an error
carrying only the detail string extracted from the response body when
present and the generic message Failed otherwise (the response status is
not part of the error value); the decoded body is returned exactly on a
success status. -/
theorem req_error_detail_only {β : Type} (st : ApiState) (r : Response β) :
    (respOk r.status = false → (req st r).result = Except.error (errDetail r))
      ∧ (respOk r.status = true → (req st r).result = Except.ok r.body) := by
  constructor <;> intro h <;> simp [req, h]

/-- C3 witness: the amended theorem applied at a concrete 404 response
with a detail field, a concrete 422 response without one, and a concrete
200 response. -/
theorem req_error_detail_only_witness :
    (req (⟨some "t"⟩ : ApiState) (⟨404, some "Meal not found", "b"⟩ : Response String)).result
        = Except.error (errDetail (⟨404, some "Meal not found", "b"⟩ : Response String))
      ∧ (req (⟨some "t"⟩ : ApiState) (⟨422, none, "b"⟩ : Response String)).result
          = Except.error (errDetail (⟨422, none, "b"⟩ : Response String))
      ∧ (req (⟨some "t"⟩ : ApiState) (⟨200, none, "ok"⟩ : Response String)).result
          = Except.ok "ok" :=
  ⟨(req_error_detail_only ⟨some "t"⟩ _).1 rfl,
   (req_error_detail_only ⟨some "t"⟩ _).1 rfl,
   (req_error_detail_only ⟨some "t"⟩ _).2 rfl⟩

/-- C4.  For either ordering of the advisory subscription check and the
privileged analyze call, if the analyze call's response is a non-success
response whose detail field is subscription_required (the distinguished
condition scan tests for, not merely any error), the scanner component
ends with the paywall raised, whatever the advisory check reported. -/
theorem scan_subscription_required_blocks {β : Type} (ast : ApiState)
    (st : ScannerState β) (adv : Except String SubStatus) (r : Response β)
    (h1 : respOk r.status = false) (h2 : r.detail = some "subscription_required") :
    (scan (subCheck st adv) (req ast r).result).showPaywall = true
      ∧ (subCheck (scan st (req ast r).result) adv).showPaywall = true := by
  have hres : (req ast r).result = Except.error "subscription_required" := by
    unfold req
    simp [h1, errDetail, h2]
  constructor
  · simp [scan, hres]
  · apply subCheck_paywall_mono
    simp [scan, hres]

/-- C4 witness: the advisory check reported an active subscription, yet a
concrete 403 analyze response with detail subscription_required raises
the paywall in both orderings. -/
theorem scan_subscription_required_blocks_witness :
    (scan (subCheck (initScanner String) (Except.ok ⟨true, false, 0, 3⟩))
        (req ⟨some "tok"⟩ (⟨403, some "subscription_required", "b"⟩ : Response String)).result).showPaywall = true
      ∧ (subCheck (scan (initScanner String)
          (req ⟨some "tok"⟩ (⟨403, some "subscription_required", "b"⟩ : Response String)).result)
          (Except.ok ⟨true, false, 0, 3⟩)).showPaywall = true :=
  scan_subscription_required_blocks ⟨some "tok"⟩ (initScanner String)
    (Except.ok ⟨true, false, 0, 3⟩) _ rfl rfl

/-- C5.  When the provider widget reports success but the server-side
verification call fails, the paywall stays up (the gate remains Blocked),
the surfaced message is the distinct contact-support one and differs from
the generic payment-failure message of the widget-failure path, and the
verification call is made exactly once in the run, never retried. -/
theorem verify_failure_stays_blocked (st : PaywallState) (v : String)
    (h : st.paywallShown = true) :
    (handlePayment st (PayOutcome.widgetSuccess (Except.error v))).paywallShown = true
      ∧ (handlePayment st (PayOutcome.widgetSuccess (Except.error v))).error
          = some "Payment verification failed. Contact support."
      ∧ (handlePayment st (PayOutcome.widgetSuccess (Except.error v))).error
          ≠ (handlePayment st (PayOutcome.widgetFailed none)).error
      ∧ verifyCalls (PayOutcome.widgetSuccess (Except.error v)) = 1 := by
  refine ⟨?_, rfl, ?_, rfl⟩
  · simp [handlePayment, h]
  · simp [handlePayment]

/-- C5 witness: the theorem applied at a concrete failed verification. -/
theorem verify_failure_stays_blocked_witness :
    (handlePayment ⟨false, none, true⟩
        (PayOutcome.widgetSuccess (Except.error "Invalid signature"))).paywallShown = true
      ∧ (handlePayment ⟨false, none, true⟩
          (PayOutcome.widgetSuccess (Except.error "Invalid signature"))).error
            = some "Payment verification failed. Contact support."
      ∧ (handlePayment ⟨false, none, true⟩
          (PayOutcome.widgetSuccess (Except.error "Invalid signature"))).error
            ≠ (handlePayment ⟨false, none, true⟩ (PayOutcome.widgetFailed none)).error
      ∧ verifyCalls (PayOutcome.widgetSuccess (Except.error "Invalid signature")) = 1 :=
  verify_failure_stays_blocked ⟨false, none, true⟩ "Invalid signature" rfl

/-- C6.  In every run of the payment sub-flow starting with the paywall
up, the paywall is dismissed (the gate moves to Allowed, after which the
user may retry the blocked analyze action) exactly when the run reached
the widget success handler and the awaited verify call succeeded: a
create-order failure, a dismissal, a widget failure or a failed
verification all leave the paywall up, so the gate never transitions
before verification completes successfully. -/
theorem paywall_dismissed_iff_verify_ok (st : PaywallState) (o : PayOutcome)
    (h : st.paywallShown = true) :
    (handlePayment st o).paywallShown = false ↔ verifiedOk o = true := by
  cases o with
  | orderFailed m => simp [handlePayment, verifiedOk, h]
  | widgetCancelled => simp [handlePayment, verifiedOk, h]
  | widgetFailed d => simp [handlePayment, verifiedOk, h]
  | widgetSuccess v =>
      cases v with
      | ok u => simp [handlePayment, verifiedOk]
      | error e => simp [handlePayment, verifiedOk, h]

/-- C6 witness: the theorem applied at a successful verification. -/
theorem paywall_dismissed_iff_verify_ok_witness :
    (handlePayment ⟨false, none, true⟩
        (PayOutcome.widgetSuccess (Except.ok ()))).paywallShown = false
      ↔ verifiedOk (PayOutcome.widgetSuccess (Except.ok ())) = true :=
  paywall_dismissed_iff_verify_ok ⟨false, none, true⟩ _ rfl

/-- C7.  For a cacheable (non-API) request the fetch listener is
network-first: an ok network response is stored under the request key and
served; a reachable server's non-success response is served untouched,
neither stored nor triggering cache fallback; a transport-level failure
serves the most recent stored entry for the key when one exists, and
propagates the failure when none does. -/
theorem sw_network_first_policy (c : Cache) (url : String)
    (h : isApiUrl url = false) :
    (∀ s b, respOk s = true →
        handleFetch c url (NetResult.resp s b) = (SWOutcome.served s b, cachePut c url s b))
      ∧ (∀ s b, respOk s = false →
          handleFetch c url (NetResult.resp s b) = (SWOutcome.served s b, c))
      ∧ (∀ s b, cacheMatch c url = some (s, b) →
          handleFetch c url NetResult.netFail = (SWOutcome.served s b, c))
      ∧ (cacheMatch c url = none →
          handleFetch c url NetResult.netFail = (SWOutcome.failed, c)) := by
  refine ⟨?_, ?_, ?_, ?_⟩
  · intro s b hs
    simp [handleFetch, h, hs]
  · intro s b hs
    simp [handleFetch, h, hs]
  · intro s b hm
    simp [handleFetch, h, hm]
  · intro hm
    simp [handleFetch, h, hm]

/-- C7 witness: the theorem applied to a concrete stylesheet URL, an
empty cache for the store and propagate cases, and a one-entry cache for
the fallback case. -/
theorem sw_network_first_policy_witness :
    handleFetch [] "http://localhost:5173/app.css" (NetResult.resp 200 "body")
        = (SWOutcome.served 200 "body", cachePut [] "http://localhost:5173/app.css" 200 "body")
      ∧ handleFetch [] "http://localhost:5173/app.css" (NetResult.resp 500 "err")
          = (SWOutcome.served 500 "err", [])
      ∧ handleFetch [("http://localhost:5173/app.css", 200, "body")]
          "http://localhost:5173/app.css" NetResult.netFail
          = (SWOutcome.served 200 "body", [("http://localhost:5173/app.css", 200, "body")])
      ∧ handleFetch [] "http://localhost:5173/app.css" NetResult.netFail
          = (SWOutcome.failed, []) :=
  ⟨(sw_network_first_policy [] "http://localhost:5173/app.css" rfl).1 200 "body" rfl,
   (sw_network_first_policy [] "http://localhost:5173/app.css" rfl).2.1 500 "err" rfl,
   (sw_network_first_policy [("http://localhost:5173/app.css", 200, "body")]
     "http://localhost:5173/app.css" rfl).2.2.1 200 "body" rfl,
   (sw_network_first_policy [] "http://localhost:5173/app.css" rfl).2.2.2 rfl⟩

/-- C8.  Store-then-serve round trip for a cacheable key: after one ok
network fetch, a request for the same key during a transport failure is
served the stored status and body.  For an API key (any URL containing
the segment /api/, such as the analyze endpoint) the listener never
serves from the cache and never stores: a transport failure surfaces as a
failure, and responses pass through with the cache untouched. -/
theorem sw_cache_round_trip_and_api_excluded (c : Cache) (url apiUrl : String)
    (s : Nat) (b : String) (h : isApiUrl url = false) (hs : respOk s = true)
    (ha : isApiUrl apiUrl = true) :
    handleFetch ((handleFetch c url (NetResult.resp s b)).2) url NetResult.netFail
        = (SWOutcome.served s b, (handleFetch c url (NetResult.resp s b)).2)
      ∧ handleFetch c apiUrl NetResult.netFail = (SWOutcome.failed, c)
      ∧ (∀ s2 b2, handleFetch c apiUrl (NetResult.resp s2 b2)
          = (SWOutcome.served s2 b2, c)) := by
  refine ⟨?_, ?_, ?_⟩
  · simp [handleFetch, h, hs, cachePut, cacheMatch, List.find?]
  · simp [handleFetch, ha]
  · intro s2 b2
    simp [handleFetch, ha]

/-- C8 witness: the theorem applied to a concrete cacheable page URL and
the concrete analyze endpoint URL. -/
theorem sw_cache_round_trip_and_api_excluded_witness :
    handleFetch ((handleFetch [] "http://localhost:5173/index.html"
          (NetResult.resp 200 "home")).2) "http://localhost:5173/index.html"
          NetResult.netFail
        = (SWOutcome.served 200 "home",
            (handleFetch [] "http://localhost:5173/index.html"
              (NetResult.resp 200 "home")).2)
      ∧ handleFetch [] "http://localhost:8000/api/meals/analyze" NetResult.netFail
          = (SWOutcome.failed, [])
      ∧ (∀ s2 b2, handleFetch [] "http://localhost:8000/api/meals/analyze"
          (NetResult.resp s2 b2) = (SWOutcome.served s2 b2, [])) :=
  sw_cache_round_trip_and_api_excluded [] "http://localhost:5173/index.html"
    "http://localhost:8000/api/meals/analyze" 200 "home" rfl rfl rfl

/-- C9.  The three dashboard reads are joined with Promise.all: when any
one of them fails, the joined promise fails as a whole and the load
leaves all three dashboard fields exactly as they were (only the loading
flag is cleared, by the finally), so no partial dashboard state is ever
produced. -/
theorem dashboard_join_all_or_nothing (st : DashState)
    (t h s : Except String String)
    (hfail : settledOk t = false ∨ settledOk h = false ∨ settledOk s = false) :
    settledOk (joinAll t h s) = false
      ∧ dashLoad st t h s = { st with loading := false } := by
  cases t <;> cases h <;> cases s <;>
    simp_all [settledOk, joinAll, dashLoad, Bind.bind, Except.bind]

/-- C9 witness: the history read fails with a network error while the
other two succeed; the join fails and no field of the prior state is
touched. -/
theorem dashboard_join_all_or_nothing_witness :
    settledOk (joinAll (Except.ok "today") (Except.error "NetworkError") (Except.ok "stats"))
        = false
      ∧ dashLoad ⟨some "oldToday", some "oldHistory", none, true⟩
          (Except.ok "today") (Except.error "NetworkError") (Except.ok "stats")
          = { today := some "oldToday", history := some "oldHistory", stats := none,
              loading := false } :=
  dashboard_join_all_or_nothing ⟨some "oldToday", some "oldHistory", none, true⟩
    (Except.ok "today") (Except.error "NetworkError") (Except.ok "stats")
    (Or.inr (Or.inl rfl))

/-- C10.  The advisory subscription check fails open: when the status
query on entry to the scanner fails in any way, the error is swallowed,
the paywall is not raised and the scanner UI renders as if the user were
allowed; when the query succeeds, the paywall replaces the scanner
exactly when active is false. -/
theorem advisory_check_fails_open :
    (∀ m : String,
        renderScanner (subCheck (initScanner String) (Except.error m)) = ScannerView.scanner
          ∧ (subCheck (initScanner String) (Except.error m)).showPaywall = false)
      ∧ (∀ s : SubStatus,
          renderScanner (subCheck (initScanner String) (Except.ok s))
            = if s.active then ScannerView.scanner else ScannerView.paywall) := by
  constructor
  · intro m
    constructor <;> simp [subCheck, renderScanner, initScanner]
  · intro s
    cases hs : s.active <;> simp [subCheck, renderScanner, initScanner, hs]

end NutriScan
